import Mathlib

/-!
Shallow embedding of the gnss-rtk PVT solver.

Lean translations of the parts of the gnss-rtk crate that the verified
properties refer to: the navigation filter (`navigation/filter.rs`), the
solution validator (`navigation/solutions/validator.rs`), the publication
stage of `Solver::resolve` (`solver.rs`), the weight matrix formation
(`cfg.rs`), the DOP helper (`navigation/dop.rs`), the Bancroft
initialization (`bancroft.rs`), the transmission-time computation
(`candidate/mod.rs`) and the navigation input assembly
(`navigation/mod.rs`).

Modelling conventions: `f64` values are modelled as real numbers (exact
epoch arithmetic, where only rational quantities occur, uses `ℚ`); the
float `is_nan` test of the source is kept as an abstract predicate
argument; a Rust panic (a failed assert or an unimplemented arm) is
modelled as a distinguished outcome and never as a returned
error; nalgebra's `try_inverse` is modelled as returning the
mathematical inverse when the determinant is a unit and `none`
otherwise.
-/

namespace GnssRtk

/-- Speed of light in m/s (`nyx::cosmic::SPEED_OF_LIGHT_M_S`). -/
def SPEED_OF_LIGHT_M_S : ℚ := 299792458

abbrev Mat8 := Matrix (Fin 8) (Fin 8) ℝ

abbrev Vec8 := Fin 8 → ℝ

abbrev Mat4 := Matrix (Fin 4) (Fin 4) ℝ

abbrev Vec4 := Fin 4 → ℝ

open Classical in
/-- Model of nalgebra `try_inverse`: the mathematical inverse when the
matrix is invertible, `none` otherwise. -/
noncomputable def tryInverse {n : ℕ} (m : Matrix (Fin n) (Fin n) ℝ) :
    Option (Matrix (Fin n) (Fin n) ℝ) :=
  if IsUnit m.det then some m⁻¹ else none

/-! ## Error taxonomy (src/src/error.rs and the solver.rs snapshot) -/

/-- Reason why a solution has been invalidated
(`navigation/solutions/validator.rs`, `InvalidationCause`). -/
inductive InvalidationCause
  | FirstSolution
  | GDOPOutlier (v : ℝ)
  | TDOPOutlier (v : ℝ)
  | InnovationOutlier (v : ℝ)
  | CodeResidual (v : ℝ)

/-- Union of the error variants of `src/src/error.rs` and of the error
enum local to `src/src/solver.rs` that the embedded functions can
mention. -/
inductive Error
  | NotEnoughCandidates
  | NotEnoughInitializationCandidates
  | MatrixInversion
  | MatrixInversionError
  | MatrixError
  | TimeIsNan
  | NavigationError
  | MissingPseudoRange
  | PseudoRangeCombination
  | PhaseRangeCombination
  | UnresolvedState
  | UnknownClockCorrection
  | PhysicalNonSenseRxPriorTx
  | BancroftError
  | BancroftImaginarySolution
  | InvalidatedSolution (cause : InvalidationCause)

/-! ## Configuration (src/src/cfg.rs snapshot) -/

/-- Source `PVTSolutionType`. -/
inductive PVTSolutionType
  | PositionVelocityTime
  | TimeOnly
deriving DecidableEq

/-- Navigation `Method` (spec shape: SPP, CPP, PPP). -/
inductive Method
  | SPP
  | CPP
  | PPP
deriving DecidableEq

/-- Source `cfg.rs` `ElevationMappingFunction` data / `WeightMatrix`. -/
inductive WeightMatrix
  | MappingFunction (a b c : ℝ)
  | Covar

/-- Source `cfg.rs` `FilterOpts`. -/
structure FilterOpts where
  weight_matrix : Option WeightMatrix

/-- Source `cfg.rs` `SolverOpts`. -/
structure SolverOpts where
  gdop_threshold : Option ℝ
  tdop_threshold : Option ℝ
  filter_opts : Option FilterOpts

/-- Source `cfg.rs` `Modeling` flags. -/
structure Modeling where
  sv_clock_bias : Bool
  sv_total_group_delay : Bool
  sv_apc : Bool
  relativistic_clock_bias : Bool
  relativistic_path_range : Bool
  tropo_delay : Bool
  iono_delay : Bool
  earth_rotation : Bool

/-- Source `cfg.rs` `InternalDelay`. -/
structure InternalDelay where
  delay : ℝ
  frequency : ℝ

/-- The fields of `Config` consumed by the embedded functions. -/
structure Config where
  method : Method
  sol_type : PVTSolutionType
  solver : SolverOpts
  modeling : Modeling
  int_delay : List InternalDelay
  externalref_delay : Option ℝ
  arp_enu : Option (ℝ × ℝ × ℝ)
  fixed_altitude : Option ℝ

/-! ## Navigation filter (src/src/navigation/filter.rs) -/

/-- Source `FilterState` (tagged LSQ / KF carried state). -/
inductive FilterState
  | Lsq (p : Mat8) (x : Vec8)
  | Kf (q p : Mat8) (x : Vec8) (phi : Mat8)

/-- Source `FilterState::estimate`. -/
def FilterState.estimate : FilterState → Vec8
  | .Lsq _ x => x
  | .Kf _ _ x _ => x

/-- Per-SV data stored in `Input.sv` (azimuth, elevation, bias values;
the `Bias` wrappers of the source are modelled by their `value()`). -/
structure SVData where
  azimuth : ℝ
  elevation : ℝ
  iono_bias : Option ℝ
  tropo_bias : Option ℝ
deriving Inhabited

/-- Navigation `Input` (src/src/navigation/mod.rs).  The `sv` hash map is
modelled as an insertion-ordered association list. -/
structure NavInput where
  y : Vec8
  g : Mat8
  w : Mat8
  sv : List (ℕ × SVData)

/-- Navigation `Output` (src/src/navigation/mod.rs). -/
structure FilterOutput where
  tdop : ℝ
  gdop : ℝ
  pdop : ℝ
  q : Mat8
  state : FilterState

/-- Source `Filter` selector. -/
inductive Filter
  | None
  | LSQ
  | Kalman

/-- Source `Filter::lsq_resolve`.  The float `is_nan` test is abstracted by the
`isNan` argument. -/
noncomputable def lsq_resolve (isNan : ℝ → Bool) (input : NavInput)
    (p_state : Option FilterState) : Except Error FilterOutput :=
  match p_state with
  | some (.Lsq pp px) =>
    match tryInverse pp with
    | none => .error .MatrixInversionError
    | some p_1 =>
      let g_prime := input.g.transpose
      match tryInverse (g_prime * input.g) with
      | none => .error .MatrixInversionError
      | some q =>
        let p0 := g_prime * input.w * input.g
        match tryInverse (p_1 + p0) with
        | none => .error .MatrixInversionError
        | some p =>
          let x := p.mulVec (p_1.mulVec px + (g_prime * input.w).mulVec input.y)
          .ok { gdop := Real.sqrt (q 0 0 + q 1 1 + q 2 2 + q 3 3)
                pdop := Real.sqrt (q 0 0 + q 1 1 + q 2 2)
                tdop := Real.sqrt (q 4 3)
                q := q
                state := .Lsq p x }
  | _ =>
    let g_prime := input.g.transpose
    match tryInverse (g_prime * input.g) with
    | none => .error .MatrixInversionError
    | some q =>
      match tryInverse (g_prime * input.w * input.g) with
      | none => .error .MatrixInversionError
      | some p =>
        let x := p.mulVec ((g_prime * input.w).mulVec input.y)
        if isNan (x 3) then .error .TimeIsNan
        else
          .ok { gdop := Real.sqrt (q 0 0 + q 1 1 + q 2 2 + q 3 3)
                pdop := Real.sqrt (q 0 0 + q 1 1 + q 2 2)
                tdop := Real.sqrt (q 4 3)
                q := q
                state := .Lsq p x }

/-- Source `Filter::kf_resolve`. -/
noncomputable def kf_resolve (isNan : ℝ → Bool) (input : NavInput)
    (p_state : Option FilterState) : Except Error FilterOutput :=
  match p_state with
  | some (.Kf pq ppm px pphi) =>
    let x_bn := pphi.mulVec px
    let p_bn := pphi * ppm * pphi.transpose + pq
    match tryInverse p_bn with
    | none => .error .MatrixInversionError
    | some p_bn_inv =>
      match tryInverse (input.g.transpose * input.w * input.g + p_bn_inv) with
      | none => .error .MatrixInversionError
      | some p_n =>
        let w_g := (input.g.transpose * input.w).mulVec input.y
        let w_gy_pbn := w_g + p_bn_inv.mulVec x_bn
        let x_n := p_n.mulVec w_gy_pbn
        let q_n := input.g.transpose * input.g
        .ok { gdop := Real.sqrt (q_n 0 0 + q_n 1 1 + q_n 2 2 + q_n 3 3)
              pdop := Real.sqrt (q_n 0 0 + q_n 1 1 + q_n 2 2)
              tdop := Real.sqrt (q_n 4 3)
              q := q_n
              state := .Kf (Matrix.diagonal fun i => if i = 7 then (1 : ℝ) else 0) p_n x_n 1 }
  | _ =>
    let g_prime := input.g.transpose
    match tryInverse (g_prime * input.g) with
    | none => .error .MatrixInversionError
    | some q =>
      match tryInverse (g_prime * input.w * input.g) with
      | none => .error .MatrixInversionError
      | some p =>
        let x := p.mulVec ((g_prime * input.w).mulVec input.y)
        if isNan (x 3) then .error .TimeIsNan
        else
          .ok { gdop := Real.sqrt (q 0 0 + q 1 1 + q 2 2 + q 3 3)
                pdop := Real.sqrt (q 0 0 + q 1 1 + q 2 2)
                tdop := Real.sqrt (q 4 3)
                q := q
                state := .Kf (Matrix.diagonal fun i => if i = 7 then (1 : ℝ) else 0) p x 1 }

/-- Source `Filter::resolve` dispatch. -/
noncomputable def Filter.resolve (f : Filter) (isNan : ℝ → Bool) (input : NavInput)
    (p_state : Option FilterState) : Except Error FilterOutput :=
  match f with
  | .None => lsq_resolve isNan input none
  | .LSQ => lsq_resolve isNan input p_state
  | .Kalman => kf_resolve isNan input p_state

/-! ## Dilution of precision (src/src/navigation/dop.rs) -/

/-- Source `DilutionOfPrecision` record. -/
structure DilutionOfPrecision where
  gdop : ℝ
  hdop : ℝ
  vdop : ℝ
  tdop : ℝ

/-- Source `DilutionOfPrecision::q_enu`. -/
noncomputable def q_enu (h : Mat4) (lat_rad lon_rad : ℝ) : Matrix (Fin 3) (Fin 3) ℝ :=
  let r : Matrix (Fin 3) (Fin 3) ℝ :=
    !![-Real.sin lon_rad, -Real.cos lon_rad * Real.sin lat_rad,
        Real.cos lat_rad * Real.cos lon_rad;
       Real.cos lon_rad, -Real.sin lat_rad * Real.sin lon_rad,
        Real.cos lat_rad * Real.sin lon_rad;
       0, Real.cos lat_rad, Real.sin lon_rad]
  let q_3 : Matrix (Fin 3) (Fin 3) ℝ :=
    Matrix.of fun i j => h ⟨i.1, by omega⟩ ⟨j.1, by omega⟩
  r.transpose * q_3 * r

/-- Source `DilutionOfPrecision::new` (the state argument only contributes its
geodetic latitude and longitude). -/
noncomputable def dilutionOfPrecisionNew (lat_rad lon_rad : ℝ) (g : Mat4) :
    DilutionOfPrecision :=
  let qe := q_enu g lat_rad lon_rad
  { gdop := Real.sqrt g.trace
    tdop := Real.sqrt (g 3 3)
    vdop := Real.sqrt (qe 2 2)
    hdop := Real.sqrt (qe 0 0 + qe 1 1) }

/-! ## Weight matrix (src/src/cfg.rs snapshot) -/

/-- Assignment `mat[(i, i)] = v` on a DMatrix. -/
def dmatSet {n : ℕ} (m : Matrix (Fin n) (Fin n) ℝ) (i : ℕ) (v : ℝ) :
    Matrix (Fin n) (Fin n) ℝ :=
  Matrix.of fun r c => if r.1 = i ∧ c.1 = i then v else m r c

/-- Source `SolverOpts::weight_matrix` of the `cfg.rs` snapshot: a DMatrix sized
by the elevation list, starting from the identity.  The unimplemented
`Covar` arm panics in the source; the panic is modelled as `none`. -/
noncomputable def weight_matrix (opts : SolverOpts) (sv_elev : List ℝ) :
    Option (Matrix (Fin sv_elev.length) (Fin sv_elev.length) ℝ) :=
  match opts.filter_opts with
  | none => some 1
  | some fo =>
    match fo.weight_matrix with
    | some .Covar => none
    | some (.MappingFunction a b c) =>
      some ((List.range (sv_elev.length - 1)).foldl (fun mat i =>
        dmatSet mat i (1 / (a + b * Real.exp (-(sv_elev.getD i 0)  / c)) ^ 2)) 1)
    | none => some 1

/-! ## Solution validator (src/src/navigation/solutions/validator.rs) -/

/-- Candidate as consumed by the validator and the publication stage of
`Solver::resolve` (quantities the source `unwrap`s are plain fields:
`pr` is `prefered_pseudorange().unwrap().value`, `position` is
`state.unwrap().position`, `clock_corr` is in seconds). -/
structure VCandidate where
  sv : ℕ
  t : ℝ
  pr : ℝ
  clock_corr : ℝ
  position : Fin 3 → ℝ
deriving Inhabited

/-- First entry of `input.sv` matching an SV identifier, or `none` when
the SV is absent (`iter().filter_map(..).reduce(|k, _| k)` keeps the
first match; its result is then `unwrap`ped by the caller). -/
def findSv (l : List (ℕ × SVData)) (s : ℕ) : Option SVData :=
  match l.filter (fun p => p.1 == s) with
  | [] => none
  | p :: _ => some p.2

/-- Source `Validator` record. -/
structure Validator where
  gdop : ℝ
  tdop : ℝ
  residuals : List ℝ

/-- Body of the `Validator::new` loop for the candidate at index `idx`:
`none` when the sv-entry lookup comes up empty (where the source's
`unwrap` panics), otherwise the code residual. -/
noncomputable def validatorResidual (apriori_ecef : Fin 3 → ℝ) (input : NavInput)
    (output : FilterOutput) (pool : List VCandidate) (idx : ℕ) : Option ℝ :=
  let cd := pool.getD idx default
  match findSv input.sv cd.sv with
  | none => none
  | some sv =>
    let x := output.state.estimate
    let px := apriori_ecef 0 + x 0
    let py := apriori_ecef 1 + x 1
    let pz := apriori_ecef 2 + x 2
    let dt := x 3 / (SPEED_OF_LIGHT_M_S : ℝ)
    let rho := Real.sqrt ((cd.position 0 - px) ^ 2 + (cd.position 1 - py) ^ 2
      + (cd.position 2 - pz) ^ 2)
    let dt2 := cd.clock_corr - dt
    let w := if h : idx < 8 then input.w ⟨idx, h⟩ ⟨idx, h⟩ else 0
    some ((cd.pr - rho + dt2 * (SPEED_OF_LIGHT_M_S : ℝ) - sv.tropo_bias.getD 0
      - sv.iono_bias.getD 0) / w)

/-- Source `Validator::new`: the per-candidate code residuals.  The
sv-entry lookup of each pool candidate is `unwrap`ped in the source, so
a candidate whose SV is absent from `input.sv` panics the constructor;
the panic is modelled as `none`, raised at the first offending index
exactly as the source loop would. -/
noncomputable def validatorNew (apriori_ecef : Fin 3 → ℝ) (pool : List VCandidate)
    (input : NavInput) (output : FilterOutput) : Option Validator :=
  match (List.range pool.length).findSome? (fun idx =>
      match validatorResidual apriori_ecef input output pool idx with
      | none => some idx
      | some _ => none) with
  | some _ => none
  | none =>
    some { gdop := output.gdop
           tdop := output.tdop
           residuals := (List.range pool.length).map fun idx =>
             (validatorResidual apriori_ecef input output pool idx).getD 0 }

open Classical in
/-- Source `Validator::validate`. -/
noncomputable def validatorValidate (v : Validator) (cfg : Config) :
    Except InvalidationCause Unit :=
  if cfg.sol_type = PVTSolutionType.TimeOnly then .ok ()
  else
    match cfg.solver.gdop_threshold with
    | some max_gdop =>
      if v.gdop > max_gdop then .error (.GDOPOutlier v.gdop)
      else
        match cfg.solver.tdop_threshold with
        | some max_tdop =>
          if v.tdop > max_tdop then .error (.TDOPOutlier v.tdop) else .ok ()
        | none => .ok ()
    | none =>
      match cfg.solver.tdop_threshold with
      | some max_tdop =>
        if v.tdop > max_tdop then .error (.TDOPOutlier v.tdop) else .ok ()
      | none => .ok ()

/-! ## Navigation state carrying (src/src/navigation/mod.rs, lines 242-265) -/

/-- Source `Navigation`: filter selector, pending output, committed filter state. -/
structure Navigation where
  filter : Filter
  pending : FilterOutput
  filter_state : Option FilterState

/-- Source `Navigation::resolve`: run the filter on the committed state and stash
the result as pending. -/
noncomputable def navResolve (nav : Navigation) (isNan : ℝ → Bool) (input : NavInput) :
    Navigation × Except Error FilterOutput :=
  match nav.filter.resolve isNan input nav.filter_state with
  | .error e => (nav, .error e)
  | .ok out => ({ nav with pending := out }, .ok out)

/-- Source `Navigation::validate`: commit the pending filter state. -/
def navValidate (nav : Navigation) : Navigation :=
  { nav with filter_state := some nav.pending.state }

/-! ## Solver publication stage (src/src/solver.rs, lines 492-607) -/

/-- Source `PVTSolution` as formed by `Solver::resolve` (fields the publication
stage writes; `dt` is the receiver clock offset in seconds). -/
structure PVTSolution where
  position : Fin 3 → ℝ
  velocity : Fin 3 → ℝ
  dt : ℝ
  d_dt : ℝ
  gdop : ℝ
  tdop : ℝ
  pdop : ℝ
  q : Mat4

/-- Source `Output::q_covar4x4`: upper-left 4x4 block of the 8x8 covariance. -/
def q_covar4x4 (q : Mat8) : Mat4 :=
  Matrix.of fun i j => q ⟨i.1, by omega⟩ ⟨j.1, by omega⟩

/-- Modelled from the spec: `PVTSolution::vdop(lat, lon)` (the method body
lives in `navigation/solutions/mod.rs`, which is not part of the sources;
spec 4.5: vdop = sqrt of the (2,2) ENU-rotated covariance entry). -/
noncomputable def PVTSolution.vdop (sol : PVTSolution) (lat_rad lon_rad : ℝ) : ℝ :=
  Real.sqrt (q_enu sol.q lat_rad lon_rad 2 2)

/-- Solution forming block of `Solver::resolve` (lines 500-538): offset
estimate by the apriori position, convert the clock term to seconds. -/
noncomputable def mkSolution (apriori : Fin 3 → ℝ) (output : FilterOutput) : PVTSolution :=
  let x := output.state.estimate
  { position := ![x 0 + apriori 0, x 1 + apriori 1, x 2 + apriori 2]
    velocity := fun _ => 0
    dt := x 3 / (SPEED_OF_LIGHT_M_S : ℝ)
    d_dt := 0
    gdop := output.gdop
    tdop := output.tdop
    pdop := output.pdop
    q := q_covar4x4 output.q }

/-- Source `Solver::rework_solution`. -/
def rework_solution (pvt : PVTSolution) (cfg : Config) : PVTSolution :=
  let pvt1 :=
    match cfg.fixed_altitude with
    | some alt =>
      { pvt with
        position := Function.update pvt.position 2 alt
        velocity := Function.update pvt.velocity 2 0 }
    | none => pvt
  if cfg.sol_type = PVTSolutionType.TimeOnly then
    { pvt1 with position := fun _ => 0, velocity := fun _ => 0 }
  else pvt1

/-- Inter-epoch solver state touched by the publication stage. -/
structure SolverState where
  nav : Navigation
  prev_solution : Option (ℝ × PVTSolution)
  prev_vdop : Option ℝ

/-- Publication stage of `Solver::resolve` (from the `nav.resolve` call to
the final `Ok`): run the filter, form the solution, discard and store the
first solution, validate later ones, commit the filter state and update
`prev_solution` only on success.  A panic inside `Validator::new` (missing
sv entry) aborts the whole call and is modelled as `none`. -/
noncomputable def solverResolveStep (cfg : Config) (st : SolverState) (isNan : ℝ → Bool)
    (t : ℝ) (apriori : Fin 3 → ℝ) (lat_rad lon_rad : ℝ) (pool : List VCandidate)
    (input : NavInput) : Option (SolverState × Except Error (ℝ × PVTSolution)) :=
  match navResolve st.nav isNan input with
  | (nav1, .error _) => some ({ st with nav := nav1 }, .error .NavigationError)
  | (nav1, .ok output) =>
    let solution := mkSolution apriori output
    match st.prev_solution with
    | none =>
      some ({ nav := nav1
              prev_vdop := some (solution.vdop lat_rad lon_rad)
              prev_solution := some (t, solution) },
        .error (.InvalidatedSolution .FirstSolution))
    | some (prev_t, prev_sol) =>
      match validatorNew apriori pool input output with
      | none => none
      | some validator =>
        match validatorValidate validator cfg with
        | .error cause => some ({ st with nav := nav1 }, .error (.InvalidatedSolution cause))
        | .ok _ =>
          let nav2 := navValidate nav1
          let dt_s := t - prev_t
          let solution2 :=
            { solution with
              velocity := fun i => (solution.position i - prev_sol.position i) / dt_s
              d_dt := (prev_sol.dt - solution.dt) / dt_s }
          some ({ nav := nav2
                  prev_vdop := st.prev_vdop
                  prev_solution := some (t, solution2) },
            .ok (t, rework_solution solution2 cfg))

/-! ## Transmission time (src/src/candidate/mod.rs, `Candidate::tx_epoch`) -/

/-- Candidate data consumed by `tx_epoch`; epochs and durations are exact
rational second counts.  The best-SNR pseudorange selection
(`best_snr_pseudo_range_m`, defined in a candidate submodule absent from
the sources) is modelled by its result. -/
structure TxCandidate where
  t : ℚ
  bestPr : Option ℚ
  tgd : Option ℚ
  clock_corr : Option ℚ

/-- Outcome of `tx_epoch`: success carries `(t_tx, dt_tx)`; a failed
`assert!` is the distinguished `panicAssert` outcome, not an error. -/
inductive TxOutcome
  | ok (t_tx dt_tx : ℚ)
  | err (e : Error)
  | panicAssert

/-- Source `Candidate::tx_epoch`. -/
def tx_epoch (cfg : Config) (cd : TxCandidate) : TxOutcome :=
  match cd.bestPr with
  | none => .err .MissingPseudoRange
  | some pr =>
    let t1 : ℚ := cd.t - pr / SPEED_OF_LIGHT_M_S
    let t2 : ℚ :=
      if cfg.modeling.sv_total_group_delay then
        match cd.tgd with
        | some tgd => t1 - tgd
        | none => t1
      else t1
    if cfg.modeling.sv_clock_bias then
      match cd.clock_corr with
      | none => .err .UnknownClockCorrection
      | some corr =>
        let t3 := t2 - corr
        if t3 < cd.t then .ok t3 (cd.t - t3) else .panicAssert
    else
      if t2 < cd.t then .ok t2 (cd.t - t2) else .panicAssert

/-! ## Bancroft bootstrap (src/src/bancroft.rs) -/

/-- Candidate data consumed by `Bancroft::new`: orbital position in km
(`to_cartesian_pos_vel`, scaled by 1e3 in the source), best-SNR
pseudorange in meters (the selection lives in a candidate submodule
absent from the sources and is modelled by its result), clock correction
and group delay in seconds. -/
structure BCandidate where
  orbit : Option (Fin 3 → ℝ)
  bestPr : Option ℝ
  clock_corr : Option ℝ
  tgd : Option ℝ

/-- Modelled from the spec: `Constants::EARTH_EQUATORIAL_RADIUS_KM`
(constants.rs is not part of the sources; spec 4.3 names Earth's
equatorial radius 6 378 137 m). -/
def EARTH_EQUATORIAL_RADIUS_KM : ℝ := 6378.137

/-- Source `Bancroft` record: the `a` vector and `B` matrix. -/
structure Bancroft where
  a : Vec4
  b : Mat4

/-- Source `Bancroft::m_matrix`: identity with `(3,3)` set to -1. -/
def mMatrix : Mat4 :=
  Matrix.of fun i j => if i = j then (if i = 3 then -1 else 1) else 0

/-- Source `Bancroft::one_vector`. -/
def onesVec : Vec4 := fun _ => 1

/-- Source `lorentz_4_4`: the scalar aᵀ M b. -/
noncomputable def lorentz_4_4 (a b : Vec4) : ℝ :=
  Matrix.dotProduct a (mMatrix.mulVec b)

/-- Row contributed to `B` and `a` by a candidate presenting orbit,
pseudorange and clock correction (the body of the nested `if let`s of
`Bancroft::new`). -/
noncomputable def validRow (cd : BCandidate) : Option (Vec4 × ℝ) :=
  match cd.orbit with
  | none => none
  | some pos =>
    let x_i := pos 0 * 1000
    let y_i := pos 1 * 1000
    let z_i := pos 2 * 1000
    match cd.bestPr with
    | none => none
    | some r_i =>
      match cd.clock_corr with
      | none => none
      | some dt_i =>
        let tgd_i := cd.tgd.getD 0
        let pr_i := r_i + dt_i * (SPEED_OF_LIGHT_M_S : ℝ) - tgd_i
        some (![x_i, y_i, z_i, pr_i],
          0.5 * (x_i ^ 2 + y_i ^ 2 + z_i ^ 2 - pr_i ^ 2))

/-- Source `Bancroft::new`: needs 4 supplied candidates, then 4 valid rows (the
source loop breaks as soon as 4 rows are gathered). -/
noncomputable def bancroftNew (cd : List BCandidate) : Except Error Bancroft :=
  if cd.length < 4 then .error .NotEnoughInitializationCandidates
  else
    let rows := (cd.filterMap validRow).take 4
    if rows.length = 4 then
      .ok { a := fun j => (rows.getD j.1 (0, 0)).2
            b := Matrix.of fun j k => (rows.getD j.1 (0, 0)).1 k }
    else .error .BancroftError

/-- Quadratic coefficients `(a, b, c)` of `Bancroft::resolve`. -/
noncomputable def bancroftCoeffs (s : Bancroft) (b_inv : Mat4) : ℝ × ℝ × ℝ :=
  let b_1 := b_inv.mulVec onesVec
  let b_a := b_inv.mulVec s.a
  (lorentz_4_4 b_1 b_1, 2 * (lorentz_4_4 b_1 b_a - 1), lorentz_4_4 b_a b_a)

/-- Candidate solution `M B⁻¹ (x·1 + a)` of `Bancroft::resolve`. -/
noncomputable def bancroftSolution (s : Bancroft) (b_inv : Mat4) (x : ℝ) : Vec4 :=
  mMatrix.mulVec (b_inv.mulVec fun j => x * onesVec j + s.a j)

/-- Discriminant of the Lorentz-metric quadratic of `Bancroft::resolve`. -/
noncomputable def bancroftDelta (s : Bancroft) (b_inv : Mat4) : ℝ :=
  let co := bancroftCoeffs s b_inv
  co.2.1 ^ 2 - 4 * co.1 * co.2.2

/-- The two quadratic roots of `Bancroft::resolve` (index 0 takes the
positive square-root branch). -/
noncomputable def bancroftRoot (s : Bancroft) (b_inv : Mat4) (k : Fin 2) : ℝ :=
  let co := bancroftCoeffs s b_inv
  let a := co.1
  let b := co.2.1
  let delta_sqrt := Real.sqrt (bancroftDelta s b_inv)
  if k = 0 then (-b + delta_sqrt) / 2 / a else (-b - delta_sqrt) / 2 / a

/-- Distance between a candidate solution's position norm and the Earth
equatorial radius, the quantity `Bancroft::resolve` minimizes. -/
noncomputable def bancroftEarthGap (s : Bancroft) (b_inv : Mat4) (x : ℝ) : ℝ :=
  let sol := bancroftSolution s b_inv x
  |Real.sqrt (sol 0 ^ 2 + sol 1 ^ 2 + sol 2 ^ 2) - EARTH_EQUATORIAL_RADIUS_KM * 1000|

open Classical in
/-- Source `Bancroft::resolve`. -/
noncomputable def bancroftResolve (s : Bancroft) : Except Error Vec4 :=
  match tryInverse s.b with
  | none => .error .MatrixInversion
  | some b_inv =>
    let co := bancroftCoeffs s b_inv
    let a := co.1
    let b := co.2.1
    let delta := bancroftDelta s b_inv
    if 0 < delta then
      let sol0 := bancroftSolution s b_inv (bancroftRoot s b_inv 0)
      let sol1 := bancroftSolution s b_inv (bancroftRoot s b_inv 1)
      if bancroftEarthGap s b_inv (bancroftRoot s b_inv 0) <
          bancroftEarthGap s b_inv (bancroftRoot s b_inv 1) then .ok sol0
      else .ok sol1
    else if delta < 0 then .error .BancroftImaginarySolution
    else .ok (bancroftSolution s b_inv (-b / a / 2))

/-! ## Navigation input assembly (src/src/navigation/mod.rs, `Input::new`) -/

/-- Orbital state attached to a candidate (position m, attitude degrees). -/
structure OrbState where
  position : Fin 3 → ℝ
  elevation : ℝ
  azimuth : ℝ
deriving Inhabited

/-- A pseudorange-like observation: value in meters and carrier
frequency in Hz. -/
structure PRObs where
  value : ℝ
  frequency : ℝ
deriving Inhabited

/-- Candidate as consumed by `Input::new`: the derived observation
selectors (`prefered_pseudorange`, `pseudorange_combination`,
`phase_combination`, defined in candidate submodules absent from the
sources) are modelled by their results. -/
structure NCandidate where
  sv : ℕ
  t : ℝ
  state : Option OrbState
  clock_corr : ℝ
  prefPr : Option PRObs
  prCombination : Option PRObs
  phCombination : Option PRObs
deriving Inhabited

/-- Source `RuntimeParams` handed to the bias models. -/
structure BiasRtm where
  t : ℝ
  elevation : ℝ
  azimuth : ℝ
  frequency : ℝ
  apriori_geo : ℝ × ℝ × ℝ

/-- Troposphere bias source: the Niel model evaluation lives in the bias
module, absent from the sources, and is abstracted as a function. -/
structure TroposphereBias where
  needs_modeling : Bool
  modelNiel : BiasRtm → ℝ
  bias : BiasRtm → Option ℝ

/-- Ionosphere bias source. -/
structure IonosphereBias where
  bias : BiasRtm → Option ℝ

/-- Row-to-candidate index of the `Input::new` loop: row `i` beyond the
pool reuses candidate `i - n` (candidate 0 in TimeOnly mode). -/
def rowIndex (cfg : Config) (n i : ℕ) : ℕ :=
  if n ≤ i then (if cfg.sol_type = PVTSolutionType.TimeOnly then 0 else i - n) else i

/-- Data produced by one iteration of the `Input::new` loop: the row of
`G`, the measurement `y[i]` and the optional `sv` map entry. -/
structure InputRow where
  grow : Vec8
  yval : ℝ
  svEntry : Option (ℕ × SVData)
deriving Inhabited

/-- Pseudorange-like observation selected by `Input::new` for the
configured method. -/
def rowPrOpt (cfg : Config) (cd : NCandidate) : Option PRObs :=
  match cfg.method with
  | .SPP => cd.prefPr
  | .CPP => cd.prCombination
  | .PPP => cd.prCombination

/-- Error raised by `Input::new` when the selected observation is
missing. -/
def rowPrErr (cfg : Config) : Error :=
  match cfg.method with
  | .SPP => .MissingPseudoRange
  | _ => .PseudoRangeCombination

/-- Geometric range from the (ARP-shifted) apriori to the SV. -/
noncomputable def rowRho (ap : ℝ × ℝ × ℝ) (st : OrbState) : ℝ :=
  Real.sqrt ((st.position 0 - ap.1) ^ 2 + (st.position 1 - ap.2.1) ^ 2
    + (st.position 2 - ap.2.2) ^ 2)

/-- Row `i` of the geometry matrix `G`: direction cosines, the clock
column, and the extra unit diagonal entry for rows beyond 3. -/
noncomputable def rowGrowFn (ap : ℝ × ℝ × ℝ) (st : OrbState) (i : Fin 8) : Vec8 :=
  fun j =>
    if j.1 = 0 then (ap.1 - st.position 0) / rowRho ap st
    else if j.1 = 1 then (ap.2.1 - st.position 1) / rowRho ap st
    else if j.1 = 2 then (ap.2.2 - st.position 2) / rowRho ap st
    else if j.1 = 3 then 1
    else if 3 < i.1 ∧ j = i then 1
    else 0

open Classical in
/-- Model accumulator of the `Input::new` loop (clock, external
reference, frequency-matched internal delays, troposphere, ionosphere),
returning the total together with the tropo and iono `sv` entries. -/
noncomputable def rowModelsVal (apriori_geo : ℝ × ℝ × ℝ) (cfg : Config)
    (cd : NCandidate) (st : OrbState) (probs : PRObs) (tropo : TroposphereBias)
    (iono : IonosphereBias) : ℝ × Option ℝ × Option ℝ :=
  let models0 : ℝ := 0
  let models1 :=
    if cfg.modeling.sv_clock_bias then models0 - cd.clock_corr * (SPEED_OF_LIGHT_M_S : ℝ)
    else models0
  let models2 :=
    match cfg.externalref_delay with
    | some d => models1 - d * (SPEED_OF_LIGHT_M_S : ℝ)
    | none => models1
  let models3 := cfg.int_delay.foldl
    (fun m dly =>
      if dly.frequency = probs.frequency then m + dly.delay * (SPEED_OF_LIGHT_M_S : ℝ)
      else m)
    models2
  let rtm : BiasRtm := ⟨cd.t, st.elevation, st.azimuth, probs.frequency, apriori_geo⟩
  let tm :=
    if cfg.modeling.tropo_delay then
      if tropo.needs_modeling then
        (models3 + tropo.modelNiel rtm, some (tropo.modelNiel rtm))
      else
        match tropo.bias rtm with
        | some bv => (models3 + bv, some bv)
        | none => (models3, none)
    else (models3, none)
  let im :=
    if cfg.method = Method.SPP ∧ cfg.modeling.iono_delay then
      match iono.bias rtm with
      | some bv => (tm.1 + bv, some bv)
      | none => (tm.1, none)
    else (tm.1, none)
  (im.1, tm.2, im.2)

/-- One iteration of the `Input::new` loop. -/
noncomputable def inputRow (ap apriori_geo : ℝ × ℝ × ℝ) (cfg : Config)
    (cds : List NCandidate) (tropo : TroposphereBias) (iono : IonosphereBias)
    (i : Fin 8) : Except Error InputRow :=
  let cd := cds.getD (rowIndex cfg cds.length i.1) default
  match cd.state with
  | none => .error .UnresolvedState
  | some state =>
    match rowPrOpt cfg cd with
    | none => .error (rowPrErr cfg)
    | some probs =>
      let md := rowModelsVal apriori_geo cfg cd state probs tropo iono
      let grow := rowGrowFn ap state i
      let svE :=
        if i.1 < cds.length then
          some (cd.sv, SVData.mk state.azimuth state.elevation md.2.2 md.2.1)
        else none
      if 3 < i.1 ∧ cfg.method = Method.PPP then
        match cd.phCombination with
        | none => .error .PseudoRangeCombination
        | some ph =>
          let windup : ℝ := 0
          .ok ⟨grow, ph.value - rowRho ap state - md.1 - windup, svE⟩
      else .ok ⟨grow, probs.value - rowRho ap state - md.1, svE⟩

/-- ARP compensation of `Input::new`: shift the apriori position by the
configured ENU offset. -/
def arpApriori (cfg : Config) (apriori : ℝ × ℝ × ℝ) : ℝ × ℝ × ℝ :=
  match cfg.arp_enu with
  | some o => (apriori.1 + o.1, apriori.2.1 + o.2.1, apriori.2.2 + o.2.2)
  | none => apriori

/-- Sequence the eight loop iterations, failing with the first error in
index order exactly as the source loop does. -/
noncomputable def seqRows (f : Fin 8 → Except Error InputRow) :
    Except Error (Fin 8 → InputRow) :=
  match (List.finRange 8).findSome?
      (fun i => match f i with | .error e => some e | .ok _ => none) with
  | some e => .error e
  | none => .ok fun i => match f i with | .ok r => r | .error _ => default

/-- Source `Input::new`.  The weight matrix is received already formed (the two
divergent `SolverOpts::weight_matrix` snapshots are modelled
separately); the `sv` hash map is modelled as the list of entries in
row order. -/
noncomputable def inputNew (apriori apriori_geo : ℝ × ℝ × ℝ) (cfg : Config)
    (cds : List NCandidate) (tropo : TroposphereBias) (iono : IonosphereBias)
    (w : Mat8) : Except Error NavInput :=
  match seqRows (inputRow (arpApriori cfg apriori) apriori_geo cfg cds tropo iono) with
  | .error e => .error e
  | .ok rows =>
    .ok { y := fun i => (rows i).yval
          g := Matrix.of fun i j => (rows i).grow j
          w := w
          sv := (List.finRange 8).filterMap fun i => (rows i).svEntry }

/-! ## Spec-side definitions used for refinement statements -/

/-- Spec formula for the no-prior LSQ covariance: Q = (Gᵀ G)⁻¹. -/
noncomputable def lsqSpecQ (input : NavInput) : Mat8 :=
  (input.g.transpose * input.g)⁻¹

/-- Spec formula for the no-prior LSQ gain: P = (Gᵀ W G)⁻¹. -/
noncomputable def lsqSpecP (input : NavInput) : Mat8 :=
  (input.g.transpose * input.w * input.g)⁻¹

/-- Spec formula for the no-prior LSQ estimate: x = P Gᵀ W y. -/
noncomputable def lsqSpecX (input : NavInput) : Vec8 :=
  (lsqSpecP input).mulVec ((input.g.transpose * input.w).mulVec input.y)

/-- Spec formula for the validator residual of candidate `cd` at weight
row `idx`, given its looked-up sv entry: (pr - rho + (clock_corr - dt)·c
- tropo - iono) / w_ii, with rho the distance from the SV position to
the estimated position and dt the estimated clock offset in seconds. -/
noncomputable def residualSpec (apriori_ecef : Fin 3 → ℝ) (input : NavInput)
    (output : FilterOutput) (cd : VCandidate) (idx : ℕ) (sv : SVData) : ℝ :=
  let x := output.state.estimate
  let dt := x 3 / (SPEED_OF_LIGHT_M_S : ℝ)
  let rho := Real.sqrt ((cd.position 0 - (apriori_ecef 0 + x 0)) ^ 2
    + (cd.position 1 - (apriori_ecef 1 + x 1)) ^ 2
    + (cd.position 2 - (apriori_ecef 2 + x 2)) ^ 2)
  let tropo := sv.tropo_bias.getD 0
  let iono := sv.iono_bias.getD 0
  let w := if h : idx < 8 then input.w ⟨idx, h⟩ ⟨idx, h⟩ else 0
  (cd.pr - rho + (cd.clock_corr - dt) * (SPEED_OF_LIGHT_M_S : ℝ) - tropo - iono) / w

/-- Spec formula for the transmission epoch: subtract pr/c, then the TGD
when enabled and known, then the clock correction when enabled. -/
def txSpec (cfg : Config) (cd : TxCandidate) (pr clk : ℚ) : ℚ :=
  cd.t - pr / SPEED_OF_LIGHT_M_S -
    (match cd.tgd, cfg.modeling.sv_total_group_delay with
     | some tgd, true => tgd
     | _, _ => 0) -
    (if cfg.modeling.sv_clock_bias then clk else 0)

/-- Row of `Input::new` that a beyond-pool row `i` reuses: candidate
`i - n` in general, candidate 0 in TimeOnly mode. -/
def reuseRow (cfg : Config) (n : ℕ) (i : Fin 8) : Fin 8 :=
  if cfg.sol_type = PVTSolutionType.TimeOnly then 0
  else ⟨i.1 - n, lt_of_le_of_lt (Nat.sub_le _ _) i.isLt⟩

/-! ## Concrete instances used by closed theorems and witnesses -/

/-- Always-false NaN predicate (real arithmetic produces no NaN). -/
def isNanFalse : ℝ → Bool := fun _ => false

/-- Navigation input with identity geometry and weights and a null
measurement vector. -/
noncomputable def idInput : NavInput :=
  { y := 0, g := 1, w := 1, sv := [] }

/-- Same as `idInput` but carrying an sv entry for SV 7 with no bias
values, so the validator's sv-entry lookup succeeds. -/
noncomputable def idInputSv : NavInput :=
  { y := 0, g := 1, w := 1, sv := [(7, ⟨0, 0, none, none⟩)] }

/-- Output of the no-prior LSQ filter on `idInput`. -/
noncomputable def outId : FilterOutput :=
  { tdop := Real.sqrt 0
    gdop := Real.sqrt 4
    pdop := Real.sqrt 3
    q := 1
    state := .Lsq 1 0 }

/-- Baseline configuration: SPP, position solution, no thresholds, no
weight matrix, every modeling flag off, no delays. -/
def cfgBase : Config :=
  { method := .SPP
    sol_type := .PositionVelocityTime
    solver := { gdop_threshold := none, tdop_threshold := none, filter_opts := none }
    modeling :=
      { sv_clock_bias := false
        sv_total_group_delay := false
        sv_apc := false
        relativistic_clock_bias := false
        relativistic_path_range := false
        tropo_delay := false
        iono_delay := false
        earth_rotation := false }
    int_delay := []
    externalref_delay := none
    arp_enu := none
    fixed_altitude := none }

/-- Source `cfgBase` with a GDOP threshold of zero. -/
def cfgGdop : Config :=
  { cfgBase with
    solver := { gdop_threshold := some 0, tdop_threshold := none, filter_opts := none } }

/-- Empty filter output used as the initial `pending` value. -/
noncomputable def outZero : FilterOutput :=
  { tdop := 0, gdop := 0, pdop := 0, q := 0, state := .Lsq 0 0 }

/-- Fresh LSQ navigation state. -/
noncomputable def navLsq : Navigation :=
  { filter := .LSQ, pending := outZero, filter_state := none }

/-- Solver state before any solution. -/
noncomputable def st0 : SolverState :=
  { nav := navLsq, prev_solution := none, prev_vdop := none }

/-- An all-zero published solution. -/
noncomputable def solZero : PVTSolution :=
  { position := fun _ => 0, velocity := fun _ => 0, dt := 0, d_dt := 0
    gdop := 0, tdop := 0, pdop := 0, q := 0 }

/-- Solver state already holding a previous solution. -/
noncomputable def stPrev : SolverState :=
  { nav := navLsq, prev_solution := some (0, solZero), prev_vdop := none }

/-- Validator candidate with a one-gigameter pseudorange toward an SV one
meter away. -/
noncomputable def vcdBig : VCandidate :=
  { sv := 7, t := 0, pr := 1000000000, clock_corr := 0, position := ![1, 0, 0] }

/-- Transmission-time candidate with a negative pseudorange (one light
second), driving `t_tx` past the sampling epoch. -/
def cdBad : TxCandidate :=
  { t := 0, bestPr := some (-299792458), tgd := none, clock_corr := none }

/-- Transmission-time candidate with every correction known. -/
def cdGood : TxCandidate :=
  { t := 0, bestPr := some 299792458, tgd := some (1/4), clock_corr := some (1/2) }

/-- Source `cfgBase` with the group-delay and clock-bias corrections enabled. -/
def cfgTx : Config :=
  { cfgBase with
    modeling := { cfgBase.modeling with sv_total_group_delay := true, sv_clock_bias := true } }

/-- Bancroft instance with identity `B` and `a = (0, 0, 0, 1)`, whose
quadratic discriminant is 24. -/
noncomputable def bcEx : Bancroft :=
  { a := ![0, 0, 0, 1], b := 1 }

/-- Solver options selecting the elevation mapping function with
`a = 2`, `b = 0`, `c = 1`. -/
noncomputable def optsMapEx : SolverOpts :=
  { gdop_threshold := none
    tdop_threshold := none
    filter_opts := some { weight_matrix := some (.MappingFunction 2 0 1) } }

/-- Null troposphere bias source. -/
def tropoNone : TroposphereBias :=
  { needs_modeling := false, modelNiel := fun _ => 0, bias := fun _ => none }

/-- Null ionosphere bias source. -/
def ionoNone : IonosphereBias :=
  { bias := fun _ => none }

/-- Candidate pool of four SVs at rational geometry (range 5 from the
origin), used to exercise `Input::new`. -/
noncomputable def cdsEx : List NCandidate :=
  [ { sv := 1, t := 0, state := some { position := ![3, 4, 0], elevation := 10, azimuth := 0 }
      clock_corr := 0, prefPr := some { value := 100, frequency := 1 }
      prCombination := none, phCombination := none },
    { sv := 2, t := 0, state := some { position := ![-3, 4, 0], elevation := 20, azimuth := 0 }
      clock_corr := 0, prefPr := some { value := 101, frequency := 1 }
      prCombination := none, phCombination := none },
    { sv := 3, t := 0, state := some { position := ![0, 3, 4], elevation := 30, azimuth := 0 }
      clock_corr := 0, prefPr := some { value := 102, frequency := 1 }
      prCombination := none, phCombination := none },
    { sv := 4, t := 0, state := some { position := ![0, -3, 4], elevation := 40, azimuth := 0 }
      clock_corr := 0, prefPr := some { value := 103, frequency := 1 }
      prCombination := none, phCombination := none } ]

/-! ## Helper lemmas -/

theorem tryInverse_of_mul_eq_one {n : ℕ} {m b : Matrix (Fin n) (Fin n) ℝ}
    (h : m * b = 1) : tryInverse m = some b := by
  have hu : IsUnit m.det := Matrix.isUnit_det_of_right_inverse h
  rw [tryInverse, if_pos hu, Matrix.inv_eq_right_inv h]

theorem tryInverse_of_isUnit {n : ℕ} {m : Matrix (Fin n) (Fin n) ℝ}
    (h : IsUnit m.det) : tryInverse m = some m⁻¹ := by
  rw [tryInverse, if_pos h]

theorem tryInverse_one {n : ℕ} : tryInverse (1 : Matrix (Fin n) (Fin n) ℝ) = some 1 :=
  tryInverse_of_mul_eq_one (one_mul 1)

theorem idInput_gtg : idInput.g.transpose * idInput.g = 1 := by
  simp [idInput]

theorem idInput_gtwg : idInput.g.transpose * idInput.w * idInput.g = 1 := by
  simp [idInput]

theorem lsq_resolve_idInput : lsq_resolve isNanFalse idInput none = .ok outId := by
  simp only [lsq_resolve, idInput, Matrix.transpose_one, one_mul, mul_one,
    tryInverse_one, Matrix.mulVec_zero, Matrix.one_mulVec, isNanFalse, if_false,
    Bool.false_eq_true, outId]
  norm_num [Matrix.one_apply, show ((4 : Fin 8) ≠ 3) by decide]

/-! ## C2: tdop entry of the navigation filter -/

/-- C2: the claim states that every navigation-filter output has
tdop = sqrt Q[3][3].  The sibling `DilutionOfPrecision::new` indeed uses
the diagonal entry, but `Filter::lsq_resolve` (and the other three
filter arms alike) computes tdop from the off-diagonal entry Q[4][3]:
on the identity input the filter returns tdop = 0 while
sqrt Q[3][3] = 1. -/
theorem c2_tdop_uses_off_diagonal_entry :
    (∀ lat lon g, (dilutionOfPrecisionNew lat lon g).tdop = Real.sqrt (g 3 3))
    ∧ lsq_resolve isNanFalse idInput none = .ok outId
    ∧ outId.tdop = 0
    ∧ Real.sqrt (outId.q 3 3) = 1 := by
  refine ⟨fun lat lon g => rfl, lsq_resolve_idInput, ?_, ?_⟩
  · simp [outId]
  · simp [outId, Matrix.one_apply]

/-! ## C6: no-prior LSQ resolution -/

/-- C6: with no prior state the LSQ filter returns Q = (GᵀG)⁻¹,
P = (GᵀWG)⁻¹ and x = P Gᵀ W y, and fails with TimeIsNan exactly when
the clock component x[3] is NaN (the float NaN test is the abstract
`isNan` argument). -/
theorem c6_lsq_no_prior (isNan : ℝ → Bool) (input : NavInput)
    (hq : IsUnit (input.g.transpose * input.g).det)
    (hp : IsUnit (input.g.transpose * input.w * input.g).det) :
    (lsq_resolve isNan input none = .error .TimeIsNan ↔ isNan (lsqSpecX input 3) = true)
    ∧ (isNan (lsqSpecX input 3) = false →
        lsq_resolve isNan input none =
          .ok { tdop := Real.sqrt (lsqSpecQ input 4 3)
                gdop := Real.sqrt (lsqSpecQ input 0 0 + lsqSpecQ input 1 1
                  + lsqSpecQ input 2 2 + lsqSpecQ input 3 3)
                pdop := Real.sqrt (lsqSpecQ input 0 0 + lsqSpecQ input 1 1
                  + lsqSpecQ input 2 2)
                q := lsqSpecQ input
                state := .Lsq (lsqSpecP input) (lsqSpecX input) }) := by
  have hlsq : lsq_resolve isNan input none =
      (if isNan (lsqSpecX input 3) then Except.error Error.TimeIsNan
       else .ok { tdop := Real.sqrt (lsqSpecQ input 4 3)
                  gdop := Real.sqrt (lsqSpecQ input 0 0 + lsqSpecQ input 1 1
                    + lsqSpecQ input 2 2 + lsqSpecQ input 3 3)
                  pdop := Real.sqrt (lsqSpecQ input 0 0 + lsqSpecQ input 1 1
                    + lsqSpecQ input 2 2)
                  q := lsqSpecQ input
                  state := .Lsq (lsqSpecP input) (lsqSpecX input) }) := by
    simp only [lsq_resolve, tryInverse_of_isUnit hq, tryInverse_of_isUnit hp,
      lsqSpecQ, lsqSpecP, lsqSpecX]
  constructor
  · rw [hlsq]
    by_cases h : isNan (lsqSpecX input 3) = true
    · simp [h]
    · simp [h]
  · intro h
    rw [hlsq, h]
    simp

/-- C6 witness: the identity input with the always-false NaN predicate. -/
theorem c6_lsq_no_prior_witness :
    lsq_resolve isNanFalse idInput none = .error .TimeIsNan ↔
      isNanFalse (lsqSpecX idInput 3) = true := by
  exact (c6_lsq_no_prior isNanFalse idInput
    (Matrix.isUnit_det_of_right_inverse (B := 1) (by rw [mul_one, idInput_gtg]))
    (Matrix.isUnit_det_of_right_inverse (B := 1) (by rw [mul_one, idInput_gtwg]))).1

/-! ## C9: GDOP/TDOP gating -/

/-- C9: validation fails with GDOPOutlier when the gdop exceeds the
configured threshold, with TDOPOutlier when the gdop gate passes and the
tdop exceeds its threshold, and both geometry gates are skipped in
TimeOnly mode. -/
theorem c9_validator_gates (v : Validator) (cfg : Config) :
    (cfg.sol_type = .TimeOnly → validatorValidate v cfg = .ok ())
    ∧ (cfg.sol_type ≠ .TimeOnly → ∀ mx, cfg.solver.gdop_threshold = some mx →
        v.gdop > mx → validatorValidate v cfg = .error (.GDOPOutlier v.gdop))
    ∧ (cfg.sol_type ≠ .TimeOnly →
        (∀ mx, cfg.solver.gdop_threshold = some mx → ¬ v.gdop > mx) →
        ∀ mt, cfg.solver.tdop_threshold = some mt → v.tdop > mt →
        validatorValidate v cfg = .error (.TDOPOutlier v.tdop)) := by
  refine ⟨?_, ?_, ?_⟩
  · intro h
    simp [validatorValidate, h]
  · intro h mx hmx hgt
    simp [validatorValidate, h, hmx, hgt]
  · intro h hpass mt hmt hgt
    rcases hg : cfg.solver.gdop_threshold with _ | mx
    · simp [validatorValidate, h, hg, hmt, hgt]
    · have hng := hpass mx hg
      simp [validatorValidate, h, hg, hmt, hgt, hng]

/-- C9 witness: TimeOnly skips a huge gdop; a gdop of 2 over threshold 1
is flagged; a tdop of 2 over threshold 1 is flagged when no gdop
threshold is set. -/
theorem c9_validator_gates_witness :
    validatorValidate ⟨9, 9, []⟩ { cfgBase with sol_type := .TimeOnly } = .ok ()
    ∧ validatorValidate ⟨2, 0, []⟩
        { cfgBase with
          solver := { gdop_threshold := some 1, tdop_threshold := none,
                      filter_opts := none } } = .error (.GDOPOutlier 2)
    ∧ validatorValidate ⟨0, 2, []⟩
        { cfgBase with
          solver := { gdop_threshold := none, tdop_threshold := some 1,
                      filter_opts := none } } = .error (.TDOPOutlier 2) := by
  refine ⟨(c9_validator_gates _ _).1 rfl, ?_, ?_⟩
  · exact (c9_validator_gates _ _).2.1 (by simp [cfgBase]) 1 rfl (by norm_num)
  · exact (c9_validator_gates _ _).2.2 (by simp [cfgBase]) (by simp) 1 rfl (by norm_num)

/-! ## C3: code residuals are computed but never gated -/

theorem validatorNew_some (apriori_ecef : Fin 3 → ℝ) (pool : List VCandidate)
    (input : NavInput) (output : FilterOutput) (v : Validator)
    (h : validatorNew apriori_ecef pool input output = some v) :
    v.gdop = output.gdop ∧ v.tdop = output.tdop
    ∧ ∀ idx, idx < pool.length →
        ∃ y, validatorResidual apriori_ecef input output pool idx = some y
          ∧ v.residuals.getD idx 0 = y := by
  unfold validatorNew at h
  cases hfind : (List.range pool.length).findSome? (fun idx =>
      match validatorResidual apriori_ecef input output pool idx with
      | none => some idx
      | some _ => none) with
  | some k =>
    rw [hfind] at h
    cases h
  | none =>
    rw [hfind] at h
    injection h with h2
    subst h2
    refine ⟨rfl, rfl, ?_⟩
    intro idx hidx
    have hnone := List.findSome?_eq_none_iff.mp hfind idx (List.mem_range.mpr hidx)
    cases hres : validatorResidual apriori_ecef input output pool idx with
    | none =>
      simp only [hres] at hnone
      exact Option.noConfusion hnone
    | some y =>
      refine ⟨y, rfl, ?_⟩
      simp [List.getD, List.getElem?_map, List.getElem?_range hidx, hres]

theorem validatorNew_nil (apriori_ecef : Fin 3 → ℝ) (input : NavInput)
    (output : FilterOutput) :
    validatorNew apriori_ecef [] input output =
      some { gdop := output.gdop, tdop := output.tdop, residuals := [] } := by
  simp [validatorNew]

/-- C3 (amended): whenever `Validator::new` completes (its sv-entry
lookups succeed), it computes the per-candidate residuals
(pr - rho + (clock_corr - dt)·c - tropo - iono) / w_ii exactly as the
claim states, but `Validator::validate` never inspects them: no
CodeResidual invalidation can be produced, and the verdict is
independent of the residual vector. -/
theorem c3_residuals_computed_but_unchecked :
    (∀ apriori pool input output v,
       validatorNew apriori pool input output = some v →
       ∀ idx, idx < pool.length →
         ∃ sv, findSv input.sv (pool.getD idx default).sv = some sv
           ∧ v.residuals.getD idx 0 =
               residualSpec apriori input output (pool.getD idx default) idx sv)
    ∧ (∀ v cfg r, validatorValidate v cfg ≠ .error (.CodeResidual r))
    ∧ (∀ v cfg rs,
        validatorValidate { v with residuals := rs } cfg = validatorValidate v cfg) := by
  refine ⟨?_, ?_, fun v cfg rs => rfl⟩
  · intro apriori pool input output v hv idx hidx
    obtain ⟨-, -, hres⟩ := validatorNew_some apriori pool input output v hv
    obtain ⟨y, hy, hgetd⟩ := hres idx hidx
    unfold validatorResidual at hy
    rcases hsv : findSv input.sv (pool.getD idx default).sv with _ | sv
    · simp only [hsv] at hy
      exact Option.noConfusion hy
    · simp only [hsv] at hy
      injection hy with hy2
      refine ⟨sv, rfl, ?_⟩
      rw [hgetd, ← hy2]
      rfl
  · intro v cfg r
    rcases h1 : cfg.sol_type <;>
      rcases h2 : cfg.solver.gdop_threshold with _ | mx <;>
        rcases h3 : cfg.solver.tdop_threshold with _ | mt <;>
          simp [validatorValidate, h1, h2, h3] <;> split_ifs <;> simp

/-- C3 witness: the residual formula at a concrete pool whose sv entry is
present, and a validator holding a residual of 5 that no configuration
turns into CodeResidual. -/
theorem c3_residuals_witness :
    (∃ v sv, validatorNew ![0, 0, 0] [vcdBig] idInputSv outId = some v
      ∧ findSv idInputSv.sv vcdBig.sv = some sv
      ∧ v.residuals.getD 0 0 = residualSpec ![0, 0, 0] idInputSv outId vcdBig 0 sv)
    ∧ validatorValidate ⟨0, 0, [5]⟩ cfgBase ≠ .error (.CodeResidual 5) := by
  constructor
  · obtain ⟨v, hv⟩ :
        ∃ v, validatorNew ![0, 0, 0] [vcdBig] idInputSv outId = some v := ⟨_, rfl⟩
    obtain ⟨sv, hsv, hres⟩ :=
      c3_residuals_computed_but_unchecked.1 ![0, 0, 0] [vcdBig] idInputSv outId v hv 0
        (by simp)
    exact ⟨v, sv, hv, hsv, hres⟩
  · exact c3_residuals_computed_but_unchecked.2.1 ⟨0, 0, [5]⟩ cfgBase 5

/-- C3 counterexample: a pool whose only candidate has a code residual of
999 999 999 (its sv entry present, so `Validator::new` completes) still
validates: no threshold exists that triggers CodeResidual, contradicting
the claim. -/
theorem c3_counterexample :
    (validatorNew ![0, 0, 0] [vcdBig] idInputSv outId).map
        (fun v => v.residuals.getD 0 0) = some 999999999
    ∧ (validatorNew ![0, 0, 0] [vcdBig] idInputSv outId).map
        (fun v => validatorValidate v cfgBase) = some (.ok ()) := by
  have hv : validatorNew ![0, 0, 0] [vcdBig] idInputSv outId =
      some { gdop := outId.gdop, tdop := outId.tdop,
             residuals := [(validatorResidual ![0, 0, 0] idInputSv outId [vcdBig] 0).getD 0] } :=
    rfl
  have hval : (validatorResidual ![0, 0, 0] idInputSv outId [vcdBig] 0).getD 0 =
      999999999 := by
    simp [validatorResidual, vcdBig, idInputSv, outId, findSv, FilterState.estimate,
      Matrix.one_apply]
    norm_num
  rw [hv]
  refine ⟨?_, ?_⟩
  · simp [hval]
  · simp [validatorValidate, cfgBase]

/-! ## C1 and C7: publication stage of Solver::resolve -/

theorem navResolve_filter_state (nav : Navigation) (isNan : ℝ → Bool) (input : NavInput) :
    (navResolve nav isNan input).1.filter_state = nav.filter_state := by
  cases h : nav.filter.resolve isNan input nav.filter_state <;> simp [navResolve, h]

theorem navResolve_lsq_idInput :
    navResolve navLsq isNanFalse idInput = ({ navLsq with pending := outId }, .ok outId) := by
  simp [navResolve, navLsq, Filter.resolve, lsq_resolve_idInput]

theorem validator_gdop_reject :
    validatorValidate { gdop := outId.gdop, tdop := outId.tdop, residuals := [] } cfgGdop =
      .error (.GDOPOutlier (Real.sqrt 4)) := by
  have h4 : (0 : ℝ) < Real.sqrt 4 := Real.sqrt_pos.mpr (by norm_num)
  simp [validatorValidate, cfgGdop, cfgBase, outId, h4]

theorem solverStep_first (cfg : Config) (st : SolverState) (isNan : ℝ → Bool)
    (t : ℝ) (apriori : Fin 3 → ℝ) (lat_rad lon_rad : ℝ) (pool : List VCandidate)
    (input : NavInput) (nav1 : Navigation) (output : FilterOutput)
    (hnav : navResolve st.nav isNan input = (nav1, .ok output))
    (hprev : st.prev_solution = none) :
    solverResolveStep cfg st isNan t apriori lat_rad lon_rad pool input =
      some ({ nav := nav1
              prev_vdop := some ((mkSolution apriori output).vdop lat_rad lon_rad)
              prev_solution := some (t, mkSolution apriori output) },
        .error (.InvalidatedSolution .FirstSolution)) := by
  simp [solverResolveStep, hnav, hprev]

/-- C1 (amended): the first solution reaching the publication stage is
stored in prev_solution and returned as InvalidatedSolution(FirstSolution)
without being validated; once a previous solution exists, a fix that
passes validation is returned as Ok. -/
theorem c1_first_solution_policy (cfg : Config) (st : SolverState) (isNan : ℝ → Bool)
    (t : ℝ) (apriori : Fin 3 → ℝ) (lat_rad lon_rad : ℝ) (pool : List VCandidate)
    (input : NavInput) (nav1 : Navigation) (output : FilterOutput)
    (hnav : navResolve st.nav isNan input = (nav1, .ok output)) :
    (st.prev_solution = none →
      solverResolveStep cfg st isNan t apriori lat_rad lon_rad pool input =
        some ({ nav := nav1
                prev_vdop := some ((mkSolution apriori output).vdop lat_rad lon_rad)
                prev_solution := some (t, mkSolution apriori output) },
          .error (.InvalidatedSolution .FirstSolution)))
    ∧ (∀ pt ps validator, st.prev_solution = some (pt, ps) →
        validatorNew apriori pool input output = some validator →
        validatorValidate validator cfg = .ok () →
        ∃ sol, solverResolveStep cfg st isNan t apriori lat_rad lon_rad pool input =
          some ({ nav := navValidate nav1
                  prev_vdop := st.prev_vdop
                  prev_solution := some (t, sol) },
            .ok (t, rework_solution sol cfg))) := by
  constructor
  · intro hprev
    exact solverStep_first cfg st isNan t apriori lat_rad lon_rad pool input nav1 output
      hnav hprev
  · intro pt ps validator hprev hvnew hval
    refine ⟨{ mkSolution apriori output with
        velocity := fun i =>
          ((mkSolution apriori output).position i - ps.position i) / (t - pt)
        d_dt := (ps.dt - (mkSolution apriori output).dt) / (t - pt) }, ?_⟩
    simp [solverResolveStep, hnav, hprev, hvnew, hval]

/-- C1 witness: a fresh solver state yields FirstSolution; a state with a
previous solution, a validator that was built, and no thresholds yields
Ok. -/
theorem c1_first_solution_policy_witness :
    solverResolveStep cfgBase st0 isNanFalse 0 (fun _ => 0) 0 0 [] idInput =
      some ({ nav := { navLsq with pending := outId }
              prev_vdop := some ((mkSolution (fun _ => 0) outId).vdop 0 0)
              prev_solution := some (0, mkSolution (fun _ => 0) outId) },
        .error (.InvalidatedSolution .FirstSolution))
    ∧ ∃ sol, solverResolveStep cfgBase stPrev isNanFalse 1 (fun _ => 0) 0 0 [] idInput =
        some ({ nav := navValidate { navLsq with pending := outId }
                prev_vdop := stPrev.prev_vdop
                prev_solution := some (1, sol) },
          .ok (1, rework_solution sol cfgBase)) := by
  constructor
  · exact (c1_first_solution_policy cfgBase st0 isNanFalse 0 (fun _ => 0) 0 0 [] idInput
      { navLsq with pending := outId } outId
      (by rw [show st0.nav = navLsq from rfl, navResolve_lsq_idInput])).1 rfl
  · exact (c1_first_solution_policy cfgBase stPrev isNanFalse 1 (fun _ => 0) 0 0 [] idInput
      { navLsq with pending := outId } outId
      (by rw [show stPrev.nav = navLsq from rfl, navResolve_lsq_idInput])).2 0 solZero
      { gdop := outId.gdop, tdop := outId.tdop, residuals := [] } rfl
      (validatorNew_nil _ _ _) (by simp [validatorValidate, cfgBase])

/-- C1 counterexample: with a GDOP threshold of zero the computed fix
fails validation, yet the very first call still stores it and returns
FirstSolution: the first solution is published without having passed
validation, contradicting the claim. -/
theorem c1_counterexample :
    solverResolveStep cfgGdop st0 isNanFalse 0 (fun _ => 0) 0 0 [] idInput =
      some ({ nav := { navLsq with pending := outId }
              prev_vdop := some ((mkSolution (fun _ => 0) outId).vdop 0 0)
              prev_solution := some (0, mkSolution (fun _ => 0) outId) },
        .error (.InvalidatedSolution .FirstSolution))
    ∧ validatorNew (fun _ => 0) [] idInput outId =
        some { gdop := outId.gdop, tdop := outId.tdop, residuals := [] }
    ∧ validatorValidate { gdop := outId.gdop, tdop := outId.tdop, residuals := [] }
        cfgGdop = .error (.GDOPOutlier (Real.sqrt 4)) := by
  refine ⟨?_, validatorNew_nil _ _ _, validator_gdop_reject⟩
  exact solverStep_first cfgGdop st0 isNanFalse 0 (fun _ => 0) 0 0 [] idInput
    { navLsq with pending := outId } outId
    (by rw [show st0.nav = navLsq from rfl, navResolve_lsq_idInput]) rfl

/-- C7: when the validator rejects the fix, resolve surfaces
InvalidatedSolution(cause) and the committed filter state is untouched;
the filter state changes only on a run that returns Ok. -/
theorem c7_state_commit_discipline (cfg : Config) (st : SolverState) (isNan : ℝ → Bool)
    (t : ℝ) (apriori : Fin 3 → ℝ) (lat_rad lon_rad : ℝ) (pool : List VCandidate)
    (input : NavInput) :
    (∀ nav1 output pt ps validator cause,
        navResolve st.nav isNan input = (nav1, .ok output) →
        st.prev_solution = some (pt, ps) →
        validatorNew apriori pool input output = some validator →
        validatorValidate validator cfg = .error cause →
        solverResolveStep cfg st isNan t apriori lat_rad lon_rad pool input =
          some ({ st with nav := nav1 }, .error (.InvalidatedSolution cause))
        ∧ nav1.filter_state = st.nav.filter_state)
    ∧ (∀ res, solverResolveStep cfg st isNan t apriori lat_rad lon_rad pool input = some res →
        res.1.nav.filter_state ≠ st.nav.filter_state →
        ∃ p, res.2 = .ok p) := by
  constructor
  · intro nav1 output pt ps validator cause hnav hprev hvnew hval
    refine ⟨by simp [solverResolveStep, hnav, hprev, hvnew, hval], ?_⟩
    have h := navResolve_filter_state st.nav isNan input
    rw [hnav] at h
    exact h
  · intro res hres hne
    rcases hnr : navResolve st.nav isNan input with ⟨nav1, out⟩
    have hfs : nav1.filter_state = st.nav.filter_state := by
      have h := navResolve_filter_state st.nav isNan input
      rw [hnr] at h
      exact h
    cases out with
    | error e =>
      have hstep : solverResolveStep cfg st isNan t apriori lat_rad lon_rad pool input =
          some ({ st with nav := nav1 }, .error .NavigationError) := by
        simp [solverResolveStep, hnr]
      rw [hstep] at hres
      injection hres with h2
      exact absurd (by rw [← h2]; exact hfs) hne
    | ok output =>
      rcases hprev : st.prev_solution with _ | ⟨pt, ps⟩
      · have hstep : solverResolveStep cfg st isNan t apriori lat_rad lon_rad pool input =
            some ({ nav := nav1
                    prev_vdop := some ((mkSolution apriori output).vdop lat_rad lon_rad)
                    prev_solution := some (t, mkSolution apriori output) },
              .error (.InvalidatedSolution .FirstSolution)) := by
          simp [solverResolveStep, hnr, hprev]
        rw [hstep] at hres
        injection hres with h2
        exact absurd (by rw [← h2]; exact hfs) hne
      · cases hvnew : validatorNew apriori pool input output with
        | none =>
          have hstep : solverResolveStep cfg st isNan t apriori lat_rad lon_rad pool input =
              none := by
            simp [solverResolveStep, hnr, hprev, hvnew]
          rw [hstep] at hres
          exact Option.noConfusion hres
        | some validator =>
          cases hval : validatorValidate validator cfg with
          | error cause =>
            have hstep : solverResolveStep cfg st isNan t apriori lat_rad lon_rad pool input =
                some ({ st with nav := nav1 }, .error (.InvalidatedSolution cause)) := by
              simp [solverResolveStep, hnr, hprev, hvnew, hval]
            rw [hstep] at hres
            injection hres with h2
            exact absurd (by rw [← h2]; exact hfs) hne
          | ok u =>
            have hstep : solverResolveStep cfg st isNan t apriori lat_rad lon_rad pool input =
                some ({ nav := navValidate nav1
                        prev_vdop := st.prev_vdop
                        prev_solution := some (t,
                          { mkSolution apriori output with
                            velocity := fun i =>
                              ((mkSolution apriori output).position i - ps.position i)
                                / (t - pt)
                            d_dt := (ps.dt - (mkSolution apriori output).dt) / (t - pt) }) },
                  .ok (t, rework_solution
                    { mkSolution apriori output with
                      velocity := fun i =>
                        ((mkSolution apriori output).position i - ps.position i) / (t - pt)
                      d_dt := (ps.dt - (mkSolution apriori output).dt) / (t - pt) } cfg)) := by
              simp [solverResolveStep, hnr, hprev, hvnew, hval]
            rw [hstep] at hres
            injection hres with h2
            rw [← h2]
            exact ⟨_, rfl⟩

/-- C7 witness: a rejected fix leaves the committed filter state in
place. -/
theorem c7_state_commit_witness :
    solverResolveStep cfgGdop stPrev isNanFalse 1 (fun _ => 0) 0 0 [] idInput =
      some ({ stPrev with nav := { navLsq with pending := outId } },
        .error (.InvalidatedSolution (.GDOPOutlier (Real.sqrt 4))))
    ∧ ({ navLsq with pending := outId } : Navigation).filter_state =
        stPrev.nav.filter_state := by
  exact (c7_state_commit_discipline cfgGdop stPrev isNanFalse 1 (fun _ => 0) 0 0 []
    idInput).1 { navLsq with pending := outId } outId 0 solZero
    { gdop := outId.gdop, tdop := outId.tdop, residuals := [] }
    (.GDOPOutlier (Real.sqrt 4))
    (by rw [show stPrev.nav = navLsq from rfl, navResolve_lsq_idInput]) rfl
    (validatorNew_nil _ _ _) validator_gdop_reject

/-! ## C4: transmission time -/

/-- C4 (amended): with a best-SNR pseudorange present, `tx_epoch`
subtracts pr/c, then the TGD when enabled and known, then the clock
correction when enabled (failing with UnknownClockCorrection when it is
enabled but absent); whenever the computed t_tx is not strictly earlier
than t, the function panics on its assert rather than returning any
error, and in particular the error PhysicalNonSenseRxPriorTx is never
produced. -/
theorem c4_tx_epoch (cfg : Config) (cd : TxCandidate) (pr : ℚ)
    (hpr : cd.bestPr = some pr) :
    (cfg.modeling.sv_clock_bias = true → cd.clock_corr = none →
        tx_epoch cfg cd = .err .UnknownClockCorrection)
    ∧ (cfg.modeling.sv_clock_bias = false →
        (txSpec cfg cd pr 0 < cd.t →
          tx_epoch cfg cd = .ok (txSpec cfg cd pr 0) (cd.t - txSpec cfg cd pr 0))
        ∧ (¬ txSpec cfg cd pr 0 < cd.t → tx_epoch cfg cd = .panicAssert))
    ∧ (∀ clk, cfg.modeling.sv_clock_bias = true → cd.clock_corr = some clk →
        (txSpec cfg cd pr clk < cd.t →
          tx_epoch cfg cd = .ok (txSpec cfg cd pr clk) (cd.t - txSpec cfg cd pr clk))
        ∧ (¬ txSpec cfg cd pr clk < cd.t → tx_epoch cfg cd = .panicAssert))
    ∧ (∀ cfg2 cd2, tx_epoch cfg2 cd2 ≠ .err .PhysicalNonSenseRxPriorTx) := by
  have hspec : ∀ clk : ℚ, txSpec cfg cd pr clk =
      (if cfg.modeling.sv_total_group_delay then
        match cd.tgd with
        | some tgd => cd.t - pr / SPEED_OF_LIGHT_M_S - tgd
        | none => cd.t - pr / SPEED_OF_LIGHT_M_S
      else cd.t - pr / SPEED_OF_LIGHT_M_S) -
      (if cfg.modeling.sv_clock_bias then clk else 0) := by
    intro clk
    cases htgd : cd.tgd <;> cases hflag : cfg.modeling.sv_total_group_delay <;>
      simp [txSpec, htgd, hflag]
  refine ⟨?_, ?_, ?_, ?_⟩
  · intro hclk hnone
    simp [tx_epoch, hpr, hclk, hnone]
  · intro hclk
    constructor <;> intro hlt <;>
      simp only [tx_epoch, hpr, hclk, hspec 0, Bool.false_eq_true, if_false, sub_zero] at hlt ⊢ <;>
      simp [hlt]
  · intro clk hclk hsome
    constructor <;> intro hlt <;>
      simp only [tx_epoch, hpr, hclk, hsome, hspec clk, if_true, sub_zero] at hlt ⊢ <;>
      simp [hlt]
  · intro cfg2 cd2
    cases hpr2 : cd2.bestPr with
    | none => simp [tx_epoch, hpr2]
    | some pr2 =>
      cases hflag2 : cfg2.modeling.sv_clock_bias with
      | false =>
        simp only [tx_epoch, hpr2, hflag2, Bool.false_eq_true, if_false]
        split_ifs <;> simp
      | true =>
        cases hck : cd2.clock_corr with
        | none => simp [tx_epoch, hpr2, hflag2, hck]
        | some ck =>
          simp only [tx_epoch, hpr2, hflag2, hck, if_true]
          split_ifs <;> simp

/-- C4 witness: with both corrections enabled and known, the computed
transmission epoch is `t - pr/c - tgd - clock`; with the clock bias
enabled but unknown the candidate is rejected. -/
theorem c4_tx_epoch_witness :
    tx_epoch cfgTx cdGood =
      .ok (txSpec cfgTx cdGood 299792458 (1 / 2))
        (cdGood.t - txSpec cfgTx cdGood 299792458 (1 / 2))
    ∧ tx_epoch cfgTx { cdGood with clock_corr := none } = .err .UnknownClockCorrection := by
  constructor
  · exact ((c4_tx_epoch cfgTx cdGood 299792458 rfl).2.2.1 (1 / 2) rfl rfl).1
      (by norm_num [txSpec, cdGood, cfgTx, cfgBase, SPEED_OF_LIGHT_M_S])
  · exact (c4_tx_epoch cfgTx { cdGood with clock_corr := none } 299792458 rfl).1 rfl rfl

/-- C4 counterexample: a negative pseudorange puts t_tx after t, and
`tx_epoch` panics on its assert instead of returning the error
PhysicalNonSenseRxPriorTx (or any error). -/
theorem c4_counterexample :
    tx_epoch cfgBase cdBad = .panicAssert
    ∧ tx_epoch cfgBase cdBad ≠ .err .PhysicalNonSenseRxPriorTx := by
  have h : tx_epoch cfgBase cdBad = .panicAssert := by
    simp only [tx_epoch, cdBad, cfgBase, Bool.false_eq_true, if_false]
    rw [if_neg]
    norm_num [SPEED_OF_LIGHT_M_S]
  refine ⟨h, fun he => ?_⟩
  rw [h] at he
  exact TxOutcome.noConfusion he

/-! ## C5: Bancroft bootstrap -/

theorem mMatrix_mulVec (v : Vec4) : mMatrix.mulVec v = ![v 0, v 1, v 2, -(v 3)] := by
  funext i
  fin_cases i <;>
    simp [mMatrix, Matrix.mulVec, Matrix.dotProduct, Fin.sum_univ_four]

theorem lorentz_explicit (a b : Vec4) :
    lorentz_4_4 a b = a 0 * b 0 + a 1 * b 1 + a 2 * b 2 - a 3 * b 3 := by
  simp [lorentz_4_4, mMatrix_mulVec, Matrix.dotProduct, Fin.sum_univ_four]
  ring

theorem bancroftDelta_bcEx : bancroftDelta bcEx 1 = 24 := by
  simp [bancroftDelta, bancroftCoeffs, bcEx, Matrix.one_mulVec, lorentz_explicit, onesVec]
  norm_num

/-- C5 (amended): `Bancroft::new` fails with
NotEnoughInitializationCandidates when fewer than 4 candidates are
supplied; with at least 4 supplied it fails with BancroftError exactly
when fewer than 4 of them present orbit, pseudorange and clock
correction; given an invertible B, `resolve` fails with
BancroftImaginarySolution exactly when the discriminant is negative, and
for a positive discriminant it returns the candidate root whose position
norm is closest to the 6 378 137 m Earth radius. -/
theorem c5_bancroft_behaviour :
    (∀ cds : List BCandidate, cds.length < 4 →
        bancroftNew cds = .error .NotEnoughInitializationCandidates)
    ∧ (∀ cds : List BCandidate, 4 ≤ cds.length →
        (bancroftNew cds = .error .BancroftError ↔ (cds.filterMap validRow).length < 4))
    ∧ (∀ s b_inv, tryInverse s.b = some b_inv →
        (bancroftResolve s = .error .BancroftImaginarySolution ↔ bancroftDelta s b_inv < 0))
    ∧ (∀ s b_inv, tryInverse s.b = some b_inv → 0 < bancroftDelta s b_inv →
        ∃ k : Fin 2,
          bancroftResolve s = .ok (bancroftSolution s b_inv (bancroftRoot s b_inv k))
          ∧ ∀ j : Fin 2, bancroftEarthGap s b_inv (bancroftRoot s b_inv k) ≤
              bancroftEarthGap s b_inv (bancroftRoot s b_inv j)) := by
  refine ⟨?_, ?_, ?_, ?_⟩
  · intro cds h
    simp [bancroftNew, h]
  · intro cds h
    have hnot : ¬ cds.length < 4 := not_lt.mpr h
    by_cases hv : (cds.filterMap validRow).length < 4
    · have hlen : ((cds.filterMap validRow).take 4).length ≠ 4 := by
        rw [List.length_take]
        omega
      simp [bancroftNew, hnot, hlen, hv]
    · have hlen : ((cds.filterMap validRow).take 4).length = 4 := by
        rw [List.length_take]
        omega
      simp [bancroftNew, hnot, hlen, hv]
  · intro s b_inv htry
    by_cases h1 : 0 < bancroftDelta s b_inv
    · have h2 : ¬ bancroftDelta s b_inv < 0 := by linarith
      simp only [bancroftResolve, htry, h1, if_true]
      constructor
      · intro h
        split_ifs at h
      · intro h
        exact absurd h h2
    · by_cases h2 : bancroftDelta s b_inv < 0
      · simp [bancroftResolve, htry, h1, h2]
      · simp [bancroftResolve, htry, h1, h2]
  · intro s b_inv htry h1
    simp only [bancroftResolve, htry, h1, if_true]
    by_cases hcmp : bancroftEarthGap s b_inv (bancroftRoot s b_inv 0) <
        bancroftEarthGap s b_inv (bancroftRoot s b_inv 1)
    · refine ⟨0, by simp [hcmp], ?_⟩
      intro j
      fin_cases j
      · exact le_refl _
      · exact le_of_lt hcmp
    · refine ⟨1, by simp [hcmp], ?_⟩
      intro j
      fin_cases j
      · exact not_lt.mp hcmp
      · exact le_refl _

/-- C5 witness: an empty pool, a pool of four dataless candidates, and a
Bancroft instance with identity B and discriminant 24. -/
theorem c5_bancroft_witness :
    bancroftNew [] = .error .NotEnoughInitializationCandidates
    ∧ bancroftNew [⟨none, none, none, none⟩, ⟨none, none, none, none⟩,
        ⟨none, none, none, none⟩, ⟨none, none, none, none⟩] = .error .BancroftError
    ∧ bancroftResolve bcEx ≠ .error .BancroftImaginarySolution
    ∧ ∃ k : Fin 2,
        bancroftResolve bcEx = .ok (bancroftSolution bcEx 1 (bancroftRoot bcEx 1 k))
        ∧ ∀ j : Fin 2, bancroftEarthGap bcEx 1 (bancroftRoot bcEx 1 k) ≤
            bancroftEarthGap bcEx 1 (bancroftRoot bcEx 1 j) := by
  have htry : tryInverse bcEx.b = some 1 := by
    rw [show bcEx.b = 1 from rfl]
    exact tryInverse_one
  refine ⟨c5_bancroft_behaviour.1 [] (by simp), ?_, ?_, ?_⟩
  · refine (c5_bancroft_behaviour.2.1 _ (by simp)).mpr ?_
    simp [validRow]
  · intro h
    have hneg := (c5_bancroft_behaviour.2.2.1 bcEx 1 htry).mp h
    rw [bancroftDelta_bcEx] at hneg
    norm_num at hneg
  · exact c5_bancroft_behaviour.2.2.2 bcEx 1 htry
      (by rw [bancroftDelta_bcEx]; norm_num)

/-- C5 counterexample: an empty candidate list presents fewer than 4
valid candidates, yet the failure is NotEnoughInitializationCandidates,
not the BancroftError the claim names. -/
theorem c5_counterexample :
    bancroftNew [] = .error .NotEnoughInitializationCandidates
    ∧ Error.NotEnoughInitializationCandidates ≠ Error.BancroftError
    ∧ bancroftNew [] ≠ .error .BancroftError := by
  refine ⟨by simp [bancroftNew], by simp, by simp [bancroftNew]⟩

/-! ## C8: weight matrix -/

theorem foldl_dmatSet_apply {n : ℕ} (f : ℕ → ℝ) (M : Matrix (Fin n) (Fin n) ℝ)
    (m : ℕ) (r c : Fin n) :
    ((List.range m).foldl (fun mat i => dmatSet mat i (f i)) M) r c =
      if r.1 = c.1 ∧ r.1 < m then f r.1 else M r c := by
  induction m with
  | zero => simp
  | succ k ih =>
    have happ : ∀ (mm : Matrix (Fin n) (Fin n) ℝ) (i : ℕ) (v : ℝ),
        dmatSet mm i v r c = if r.1 = i ∧ c.1 = i then v else mm r c := fun _ _ _ => rfl
    rw [List.range_succ, List.foldl_append]
    simp only [List.foldl_cons, List.foldl_nil]
    rw [happ, ih]
    split_ifs with h1 h2 h2 h3 <;> first
      | rfl
      | omega
      | (rw [h1.1])

/-- C8 (amended): the weight matrix is always diagonal and is the
identity when no weight matrix is configured; with a MappingFunction
{a, b, c}, each diagonal entry except the last equals
1/(a + b·exp(-el/c))^2, while the loop bound `0..len - 1` leaves the
last candidate's entry at 1. -/
theorem c8_weight_matrix (opts : SolverOpts) (elevs : List ℝ) :
    (∀ m, weight_matrix opts elevs = some m → ∀ r c, r ≠ c → m r c = 0)
    ∧ (opts.filter_opts = none ∨
        (∃ fo, opts.filter_opts = some fo ∧ fo.weight_matrix = none) →
        weight_matrix opts elevs = some 1)
    ∧ (∀ a b c fo, opts.filter_opts = some fo →
        fo.weight_matrix = some (.MappingFunction a b c) →
        ∃ m, weight_matrix opts elevs = some m
          ∧ (∀ r : Fin elevs.length, r.1 + 1 < elevs.length →
              m r r = 1 / (a + b * Real.exp (-(elevs.getD r.1 0) / c)) ^ 2)
          ∧ (∀ r : Fin elevs.length, r.1 + 1 = elevs.length → m r r = 1)) := by
  refine ⟨?_, ?_, ?_⟩
  · intro m hm r c hrc
    have hv : r.1 ≠ c.1 := fun h => hrc (Fin.ext h)
    rcases ho : opts.filter_opts with _ | fo
    · simp only [weight_matrix, ho, Option.some.injEq] at hm
      rw [← hm]
      exact Matrix.one_apply_ne hrc
    · rcases hw : fo.weight_matrix with _ | wm
      · simp only [weight_matrix, ho, hw, Option.some.injEq] at hm
        rw [← hm]
        exact Matrix.one_apply_ne hrc
      · cases wm with
        | MappingFunction a b c2 =>
          simp only [weight_matrix, ho, hw, Option.some.injEq] at hm
          rw [← hm, foldl_dmatSet_apply]
          simp [hv, Matrix.one_apply_ne hrc]
        | Covar =>
          simp only [weight_matrix, ho, hw] at hm
          exact Option.noConfusion hm
  · intro h
    rcases h with h | ⟨fo, hfo, hwm⟩
    · simp only [weight_matrix, h]
    · simp only [weight_matrix, hfo, hwm]
  · intro a b c fo hfo hwm
    refine ⟨(List.range (elevs.length - 1)).foldl
        (fun mat i => dmatSet mat i (1 / (a + b * Real.exp (-(elevs.getD i 0) / c)) ^ 2)) 1,
      ?_, ?_, ?_⟩
    · simp only [weight_matrix, hfo, hwm]
    · intro r hr
      rw [foldl_dmatSet_apply]
      rw [if_pos ⟨rfl, by omega⟩]
    · intro r hr
      rw [foldl_dmatSet_apply]
      rw [if_neg (by omega), Matrix.one_apply_eq]

/-- C8 witness: with no configured weight matrix the result is the
identity; with MappingFunction {2, 0, 1} on two candidates the first
diagonal entry is 1/(2 + 0·exp(0))^2 and the last stays 1. -/
theorem c8_weight_matrix_witness :
    weight_matrix { gdop_threshold := none, tdop_threshold := none, filter_opts := none }
        [0, 0] = some 1
    ∧ ∃ m, weight_matrix optsMapEx [0, 0] = some m
        ∧ m ⟨0, by norm_num⟩ ⟨0, by norm_num⟩ =
            1 / (2 + 0 * Real.exp (-(([(0:ℝ), 0]).getD 0 0) / 1)) ^ 2
        ∧ m ⟨1, by norm_num⟩ ⟨1, by norm_num⟩ = 1 := by
  constructor
  · exact (c8_weight_matrix _ _).2.1 (Or.inl rfl)
  · obtain ⟨m, hm, hlow, hlast⟩ :=
      (c8_weight_matrix optsMapEx [0, 0]).2.2 2 0 1 _ rfl rfl
    exact ⟨m, hm, hlow ⟨0, by norm_num⟩ (by norm_num), hlast ⟨1, by norm_num⟩ (by norm_num)⟩

/-- C8 counterexample: with MappingFunction {2, 0, 1} and two candidates
the mapping value is 1/4, but the last diagonal entry is 1, so not every
diagonal entry equals 1/sigma^2. -/
theorem c8_counterexample :
    ((weight_matrix optsMapEx [0, 0]).getD 1) ⟨1, by norm_num⟩ ⟨1, by norm_num⟩ = 1
    ∧ (1 : ℝ) / (2 + 0 * Real.exp (-((0:ℝ)) / 1)) ^ 2 = 1 / 4
    ∧ ((weight_matrix optsMapEx [0, 0]).getD 1) ⟨1, by norm_num⟩ ⟨1, by norm_num⟩ ≠
        (1 : ℝ) / (2 + 0 * Real.exp (-((0:ℝ)) / 1)) ^ 2 := by
  have hlast :
      ((weight_matrix optsMapEx [0, 0]).getD 1) ⟨1, by norm_num⟩ ⟨1, by norm_num⟩ = 1 := by
    simp only [weight_matrix, optsMapEx, Option.getD_some]
    rw [foldl_dmatSet_apply]
    rw [if_neg (by norm_num), Matrix.one_apply_eq]
  have hquarter : (1 : ℝ) / (2 + 0 * Real.exp (-((0:ℝ)) / 1)) ^ 2 = 1 / 4 := by
    norm_num
  refine ⟨hlast, hquarter, ?_⟩
  rw [hlast, hquarter]
  norm_num

/-! ## C10: Input::new row duplication -/

theorem seqRows_ok (f : Fin 8 → Except Error InputRow) (rows : Fin 8 → InputRow)
    (h : seqRows f = .ok rows) : ∀ i, f i = .ok (rows i) := by
  intro i
  unfold seqRows at h
  cases hfind : (List.finRange 8).findSome?
      (fun i => match f i with | .error e => some e | .ok _ => none) with
  | some e =>
    rw [hfind] at h
    cases h
  | none =>
    rw [hfind] at h
    have hnone := List.findSome?_eq_none_iff.mp hfind i (List.mem_finRange i)
    injection h with h2
    cases hf : f i with
    | error e =>
      rw [hf] at hnone
      cases hnone
    | ok r =>
      rw [← h2]
      simp [hf]

theorem inputNew_rows (apriori apriori_geo : ℝ × ℝ × ℝ) (cfg : Config)
    (cds : List NCandidate) (tropo : TroposphereBias) (iono : IonosphereBias)
    (w : Mat8) (inp : NavInput)
    (hok : inputNew apriori apriori_geo cfg cds tropo iono w = .ok inp) :
    ∀ i : Fin 8, ∃ r,
      inputRow (arpApriori cfg apriori) apriori_geo cfg cds tropo iono i = .ok r
      ∧ (∀ j, inp.g i j = r.grow j) ∧ inp.y i = r.yval := by
  intro i
  unfold inputNew at hok
  cases hseq : seqRows (inputRow (arpApriori cfg apriori) apriori_geo cfg cds tropo iono) with
  | error e =>
    rw [hseq] at hok
    cases hok
  | ok rows =>
    rw [hseq] at hok
    injection hok with h2
    subst h2
    exact ⟨rows i, seqRows_ok _ _ hseq i, fun j => rfl, rfl⟩

theorem rowGrowFn_low (ap : ℝ × ℝ × ℝ) (st : OrbState) (i j cc : Fin 8)
    (hcc : cc.1 ≤ 3) : rowGrowFn ap st i cc = rowGrowFn ap st j cc := by
  have hi5 : ¬(3 < i.1 ∧ cc = i) := fun h => absurd hcc (by rw [h.2]; omega)
  have hj5 : ¬(3 < j.1 ∧ cc = j) := fun h => absurd hcc (by rw [h.2]; omega)
  simp only [rowGrowFn]
  rw [if_neg hi5, if_neg hj5]

theorem rowGrowFn_diag (ap : ℝ × ℝ × ℝ) (st : OrbState) (i : Fin 8)
    (h3 : 3 < i.1) : rowGrowFn ap st i i = 1 := by
  have h0 : ¬ i.1 = 0 := by omega
  have h1 : ¬ i.1 = 1 := by omega
  have h2 : ¬ i.1 = 2 := by omega
  have h3c : ¬ i.1 = 3 := by omega
  simp only [rowGrowFn]
  rw [if_neg h0, if_neg h1, if_neg h2, if_neg h3c, if_pos ⟨h3, trivial⟩]

theorem inputRow_grow (ap apriori_geo : ℝ × ℝ × ℝ) (cfg : Config)
    (cds : List NCandidate) (tropo : TroposphereBias) (iono : IonosphereBias)
    (i : Fin 8) (ri : InputRow)
    (hi : inputRow ap apriori_geo cfg cds tropo iono i = .ok ri) :
    ∃ st, (cds.getD (rowIndex cfg cds.length i.1) default).state = some st
      ∧ ri.grow = rowGrowFn ap st i := by
  simp only [inputRow] at hi
  rcases hst : (cds.getD (rowIndex cfg cds.length i.1) default).state with _ | st
  · simp only [hst] at hi
    exact Except.noConfusion hi
  · simp only [hst] at hi
    rcases hpr : rowPrOpt cfg (cds.getD (rowIndex cfg cds.length i.1) default) with _ | probs
    · simp only [hpr] at hi
      exact Except.noConfusion hi
    · simp only [hpr] at hi
      refine ⟨st, rfl, ?_⟩
      by_cases hc : 3 < i.1 ∧ cfg.method = Method.PPP
      · rw [if_pos hc] at hi
        rcases hph : (cds.getD (rowIndex cfg cds.length i.1) default).phCombination with _ | ph
        · simp only [hph] at hi
          exact Except.noConfusion hi
        · simp only [hph] at hi
          cases hi
          rfl
      · rw [if_neg hc] at hi
        cases hi
        rfl

theorem inputRow_yv (ap apriori_geo : ℝ × ℝ × ℝ) (cfg : Config)
    (cds : List NCandidate) (tropo : TroposphereBias) (iono : IonosphereBias)
    (i : Fin 8) (ri : InputRow) (hmeth : cfg.method ≠ .PPP)
    (hi : inputRow ap apriori_geo cfg cds tropo iono i = .ok ri) :
    ∃ st probs,
      (cds.getD (rowIndex cfg cds.length i.1) default).state = some st
      ∧ rowPrOpt cfg (cds.getD (rowIndex cfg cds.length i.1) default) = some probs
      ∧ ri.yval = probs.value - rowRho ap st
          - (rowModelsVal apriori_geo cfg (cds.getD (rowIndex cfg cds.length i.1) default)
              st probs tropo iono).1 := by
  simp only [inputRow] at hi
  rcases hst : (cds.getD (rowIndex cfg cds.length i.1) default).state with _ | st
  · simp only [hst] at hi
    exact Except.noConfusion hi
  · simp only [hst] at hi
    rcases hpr : rowPrOpt cfg (cds.getD (rowIndex cfg cds.length i.1) default) with _ | probs
    · simp only [hpr] at hi
      exact Except.noConfusion hi
    · simp only [hpr] at hi
      have hc : ¬(3 < i.1 ∧ cfg.method = Method.PPP) := fun h => hmeth h.2
      rw [if_neg hc] at hi
      cases hi
      exact ⟨st, probs, rfl, rfl, rfl⟩

/-- C10: for a pool of n candidates with 4 <= n < 8, the rows of G and y
with index i >= n reuse candidate i - n (candidate 0 in TimeOnly mode):
their geometry columns and measurement agree with those of row i - n
(row 0), and every row with index i > 3 carries G[i][i] = 1. -/
theorem c10_input_row_reuse (apriori apriori_geo : ℝ × ℝ × ℝ) (cfg : Config)
    (cds : List NCandidate) (tropo : TroposphereBias) (iono : IonosphereBias)
    (w : Mat8) (inp : NavInput)
    (h4 : 4 ≤ cds.length) (h8 : cds.length < 8)
    (hok : inputNew apriori apriori_geo cfg cds tropo iono w = .ok inp) :
    (∀ i : Fin 8, cds.length ≤ i.1 → ∀ cc : Fin 8, cc.1 ≤ 3 →
        inp.g i cc = inp.g (reuseRow cfg cds.length i) cc)
    ∧ (∀ i : Fin 8, cds.length ≤ i.1 → cfg.method ≠ .PPP →
        inp.y i = inp.y (reuseRow cfg cds.length i))
    ∧ (∀ i : Fin 8, 3 < i.1 → inp.g i i = 1) := by
  have hrows := inputNew_rows apriori apriori_geo cfg cds tropo iono w inp hok
  have hidx : ∀ i : Fin 8, cds.length ≤ i.1 →
      rowIndex cfg cds.length (reuseRow cfg cds.length i).1 =
        rowIndex cfg cds.length i.1 := by
    intro i hi
    by_cases ht : cfg.sol_type = PVTSolutionType.TimeOnly
    · have hz : ¬ (cds.length ≤ (0 : Fin 8).1) := by
        simp only [Fin.val_zero]
        omega
      simp [rowIndex, reuseRow, ht, hi, hz]
    · have hz : ¬ (cds.length ≤ i.1 - cds.length) := by omega
      simp [rowIndex, reuseRow, ht, hi, hz]
  refine ⟨?_, ?_, ?_⟩
  · intro i hi cc hcc
    obtain ⟨ri, hri, hgi, hyi⟩ := hrows i
    obtain ⟨rj, hrj, hgj, hyj⟩ := hrows (reuseRow cfg cds.length i)
    obtain ⟨sti, hsti, hgrowi⟩ := inputRow_grow _ _ _ _ _ _ _ _ hri
    obtain ⟨stj, hstj, hgrowj⟩ := inputRow_grow _ _ _ _ _ _ _ _ hrj
    rw [hidx i hi] at hstj
    have hst : sti = stj := by
      rw [hsti] at hstj
      exact Option.some.inj hstj
    rw [hgi cc, hgj cc, hgrowi, hgrowj, ← hst]
    exact rowGrowFn_low _ _ _ _ _ hcc
  · intro i hi hmeth
    obtain ⟨ri, hri, hgi, hyi⟩ := hrows i
    obtain ⟨rj, hrj, hgj, hyj⟩ := hrows (reuseRow cfg cds.length i)
    obtain ⟨sti, probsi, hsti, hpri, hyvi⟩ := inputRow_yv _ _ _ _ _ _ _ _ hmeth hri
    obtain ⟨stj, probsj, hstj, hprj, hyvj⟩ := inputRow_yv _ _ _ _ _ _ _ _ hmeth hrj
    rw [hidx i hi] at hstj hprj
    have hst : sti = stj := by
      rw [hsti] at hstj
      exact Option.some.inj hstj
    have hpr : probsi = probsj := by
      rw [hpri] at hprj
      exact Option.some.inj hprj
    rw [hyi, hyj, hyvi, hyvj, ← hst, ← hpr, hidx i hi]
  · intro i h3
    obtain ⟨ri, hri, hgi, hyi⟩ := hrows i
    obtain ⟨sti, hsti, hgrowi⟩ := inputRow_grow _ _ _ _ _ _ _ _ hri
    rw [hgi i, hgrowi]
    exact rowGrowFn_diag _ _ _ h3

/-- C10 witness: on a concrete pool of four SPP candidates, row 4 of G
and y duplicates row 0 and carries the extra unit diagonal entry. -/
theorem c10_input_row_reuse_witness :
    ∃ inp, inputNew (0, 0, 0) (0, 0, 0) cfgBase cdsEx tropoNone ionoNone 1 = .ok inp
      ∧ inp.g ⟨4, by norm_num⟩ ⟨0, by norm_num⟩ = inp.g ⟨0, by norm_num⟩ ⟨0, by norm_num⟩
      ∧ inp.y ⟨4, by norm_num⟩ = inp.y ⟨0, by norm_num⟩
      ∧ inp.g ⟨4, by norm_num⟩ ⟨4, by norm_num⟩ = 1 := by
  obtain ⟨inp, hinp⟩ :
      ∃ inp, inputNew (0, 0, 0) (0, 0, 0) cfgBase cdsEx tropoNone ionoNone 1 = .ok inp :=
    ⟨_, rfl⟩
  have h := c10_input_row_reuse (0, 0, 0) (0, 0, 0) cfgBase cdsEx tropoNone ionoNone 1 inp
    (by simp [cdsEx]) (by simp [cdsEx]) hinp
  refine ⟨inp, hinp, ?_, ?_, ?_⟩
  · exact h.1 ⟨4, by norm_num⟩ (by simp [cdsEx]) ⟨0, by norm_num⟩ (by norm_num)
  · exact h.2.1 ⟨4, by norm_num⟩ (by simp [cdsEx]) (by simp [cfgBase])
  · exact h.2.2 ⟨4, by norm_num⟩ (by norm_num)

end GnssRtk
